import Mathlib

/-!
Verification development for the UCLA dining scraper (`src/scraper.py`,
class `UCLADiningScraper`).  The scraper's nested JSON document
(`self.dining_data`) is embedded as explicit record types; Python dicts
become association lists preserving insertion order (assignment to an
existing key keeps its position, as CPython dicts do); network I/O
(`requests.get`) is abstracted as a function from URL to an optional
parsed page, and every performed GET is logged in a `fetched` trace so
that "number of network calls" is observable.  BeautifulSoup DOM
traversal is abstracted to its observable results: each kind of page is
a record holding exactly the pieces of text/attributes the scraper's
`find`/`find_next` calls extract.  Exceptions are modelled with
`Option`/explicit failure flags at the boundary where the Python code
catches them.
-/

/-- Python `dict[k] = v` on a string-keyed dict: replaces the value at the
first (unique) occurrence of the key, keeping its position, or appends a
new binding at the end (CPython insertion-order semantics). -/
def setEntry {α : Type} : List (String × α) → String → α → List (String × α)
  | [], k, v => [(k, v)]
  | (k1, v1) :: rest, k, v =>
    if k1 == k then (k, v) :: rest else (k1, v1) :: setEntry rest k v

/-- `re.search(r'(\d+)', s).group(0)`: the first maximal run of (ASCII)
digits in `s`, or `None` when the string has no digit (scraper.py
lines 396-399, 512-514). -/
def firstDigitRunAux : List Char → Option String
  | [] => none
  | c :: rest =>
    if c.isDigit then some (String.mk (c :: rest.takeWhile Char.isDigit))
    else firstDigitRunAux rest

/-- String form of `firstDigitRunAux`. -/
def firstDigitRun (s : String) : Option String := firstDigitRunAux s.data

/-- Python `str.strip()`: remove leading and trailing whitespace (modelled
over the character list; Python's whitespace class is abstracted by
`Char.isWhitespace`). -/
def pystrip (s : String) : String :=
  String.mk
    (((s.data.dropWhile Char.isWhitespace).reverse.dropWhile
        Char.isWhitespace).reverse)

/-- One day-schedule of hall hours: the four fixed keys written by
`_parse_location_hours` (scraper.py lines 238-243). -/
structure DaySchedule where
  breakfast : String
  lunch : String
  dinner : String
  ext_dinner : String
deriving DecidableEq, Repr

/-- One day of a hall menu: the `"open"` flag (lines 351, 359) plus the
meal-type keys added next to it (line 370), each mapping section names to
ordered item-id lists (line 401). -/
structure DayMenu where
  isOpen : Bool
  meals : List (String × List (String × List String))
deriving DecidableEq, Repr

/-- A hall record as built by `_parse_dining_hours_table`
(lines 218-222): a `link`, an `hours` dict, and a `menu` dict that is only
created by `_parse_hall_menu_sections` (line 347-348), hence `Option`. -/
structure HallRecord where
  link : String
  hours : List (String × DaySchedule)
  menu : Option (List (String × DayMenu))
deriving DecidableEq, Repr

/-- The `trucks` sub-document: the `"week_of"` freshness marker
(line 268, absent before the first truck scrape) and the per-location
schedules (lines 285-297).  Each day maps the two literal slot-label keys
to free text. -/
structure TruckData where
  week_of : Option String
  locations : List (String × List (String × List (String × String)))
deriving DecidableEq, Repr

/-- Nutrition-section extraction results of `_parse_standard_item`
(lines 458-479), abstracted from the DOM: serving size, calories and the
remaining nutrient rows `label.lower() -> [value, percent-or-None]`. -/
structure StandardFacts where
  serving_size : Option String
  calories : Option String
  nutrients : List (String × String × Option String)
deriving DecidableEq, Repr

/-- A standard item record (`_parse_standard_item`): name, the dietary
labels when the content div exists (lines 442-451), and nutrition. -/
structure ItemInfo where
  name : String
  labels : Option (List String)
  facts : StandardFacts
deriving DecidableEq, Repr

/-- One record of the `items` dict: either a standard item with nutrition
facts (line 421) or a custom/composite item with grouped ingredient ids
(line 519). -/
inductive ItemRecord where
  | standard (info : ItemInfo)
  | custom (name : String) (ingredients : List (String × List String))
deriving DecidableEq, Repr

/-- One `complex-ingredient-group` div of an item detail page
(lines 497-515): the optional `h4` header and, per `li`, the optional
`a[href]` link target. -/
structure IngGroup where
  header : Option String
  links : List (Option String)
deriving DecidableEq, Repr

/-- An item detail page, abstracted to what `_parse_standard_item` and
`_scrape_custom_item` extract from its soup: the `h2.headline-text__lg`
text, the svg stems of the content div's icons (when that div exists),
the nutrition section (when present), and the ingredient groups. -/
structure ItemPage where
  headline : Option String
  labelsDiv : Option (List String)
  nutrition : Option StandardFacts
  ingredientGroups : List IngGroup
deriving Repr

/-- The whole `self.dining_data` document as produced by
`_initialize_dining_data` (lines 55-63): `halls`, `trucks`, `ASUCLA`
(initialized empty and never touched by any scraper method), `items`,
`last_updated`. -/
structure DiningData where
  halls : List (String × HallRecord)
  trucks : TruckData
  asucla : List (String × String)
  items : List (String × ItemRecord)
  last_updated : Option String
deriving DecidableEq, Repr

/-- Scraper run state: the in-memory document plus the trace of URLs that
`requests.get` was invoked on (a model artifact making network calls
countable). -/
structure St where
  data : DiningData
  fetched : List String
deriving DecidableEq, Repr

/-- The document `_initialize_dining_data` returns. -/
def emptyData : DiningData :=
  { halls := [], trucks := { week_of := none, locations := [] },
    asucla := [], items := [], last_updated := none }

/-- Fresh run state: empty document, no network calls yet. -/
def emptySt : St := { data := emptyData, fetched := [] }

/-- Relative item links are prefixed with this before fetching
(lines 393, 517). -/
def siteRoot : String := "https://dining.ucla.edu"

/-- `item_info["ingredients"][section_label].append(ingredient_id)`
(line 515): append one id to the list stored under a group label. -/
def appendAtKey (m : List (String × List String)) (k v : String) :
    List (String × List String) :=
  setEntry m k (((List.lookup k m).getD []) ++ [v])

/-- `self.dining_data["items"][item_id] = item_info` (lines 421, 519). -/
def setItem (st : St) (itemId : String) (rec : ItemRecord) : St :=
  { st with data := { st.data with items := setEntry st.data.items itemId rec } }

/-- `_parse_standard_item` (lines 430-484), on the abstracted page: fails
(returns `None`) when the name heading is absent or when the nutrition
section is absent; otherwise yields the standard record. -/
def parse_standard_item (p : ItemPage) : Option ItemInfo :=
  match p.headline with
  | none => none
  | some nm =>
    match p.nutrition with
    | none => none
    | some facts => some { name := nm, labels := p.labelsDiv, facts := facts }

/-- The inner `for ingredient in ingredients` loop of
`_scrape_custom_item` (lines 508-517): for each `li`, if it has a link
whose href contains a digit run, append that id to the group's list and
recursively resolve it via `resolve` (the recursive `_scrape_menu_item`
call, whose Boolean result is discarded).  `none` propagates fuel
exhaustion of the recursion (the divergence marker). -/
def scrape_ingredient_links
    (resolve : St → String → String → Option (Bool × St)) (label : String) :
    List (Option String) → List (String × List String) → St →
      Option (List (String × List String) × St)
  | [], ings, st => some (ings, st)
  | none :: rest, ings, st => scrape_ingredient_links resolve label rest ings st
  | some href :: rest, ings, st =>
    match firstDigitRun href with
    | none => scrape_ingredient_links resolve label rest ings st
    | some ingId =>
      match resolve st ingId (siteRoot ++ href) with
      | none => none
      | some (_, st1) =>
        scrape_ingredient_links resolve label rest (appendAtKey ings label ingId) st1

/-- The outer `for section in ingredient_sections` loop of
`_scrape_custom_item` (lines 499-517): groups without an `h4` header are
skipped; a header initializes the group's entry to `[]` (line 505) before
the link loop fills it. -/
def scrape_ingredient_groups
    (resolve : St → String → String → Option (Bool × St)) :
    List IngGroup → List (String × List String) → St →
      Option (List (String × List String) × St)
  | [], ings, st => some (ings, st)
  | g :: rest, ings, st =>
    match g.header with
    | none => scrape_ingredient_groups resolve rest ings st
    | some htext =>
      match scrape_ingredient_links resolve (pystrip htext) g.links
          (setEntry ings (pystrip htext) []) st with
      | none => none
      | some (ings1, st1) => scrape_ingredient_groups resolve rest ings1 st1

/-- `_scrape_menu_item` (scraper.py lines 407-428) together with its
`_scrape_custom_item` fallback (lines 486-524), with explicit fuel: the
Python function is generally recursive through ingredient resolution and
`none` marks fuel exhaustion, i.e. a run of the Python code that has not
returned within `fuel` nested resolver invocations.  Steps, in source
order: memo hit on `items` returns `True` with nothing changed; otherwise
the detail page is fetched (logged in `fetched`; a network error yields
`False`); a successful standard parse stores a standard record; otherwise
the custom path requires the name heading (else `False`), walks the
ingredient groups recursively, then stores the composite record and
returns `True`. -/
def scrape_menu_item (fetch : String → Option ItemPage) :
    Nat → St → String → String → Option (Bool × St)
  | 0, _, _, _ => none
  | fuel + 1, st, itemId, url =>
    if (List.lookup itemId st.data.items).isSome then some (true, st)
    else
      let st1 : St := { st with fetched := st.fetched ++ [url] }
      match fetch url with
      | none => some (false, st1)
      | some page =>
        match parse_standard_item page with
        | some info => some (true, setItem st1 itemId (ItemRecord.standard info))
        | none =>
          match page.headline with
          | none => some (false, st1)
          | some nm =>
            match scrape_ingredient_groups
                (fun s i u => scrape_menu_item fetch fuel s i u)
                page.ingredientGroups [] st1 with
            | none => none
            | some (ings, st2) =>
              some (true, setItem st2 itemId (ItemRecord.custom nm ings))

/-- The `DINING_URLS` class constant (scraper.py lines 21-34). -/
def DINING_URLS : List (String × String) :=
  [("hours", "https://dining.ucla.edu/dining-locations/"),
   ("b-plate", "https://dining.ucla.edu/bruin-plate/"),
   ("de-neve", "https://dining.ucla.edu/de-neve-dining/"),
   ("epic-covel", "https://dining.ucla.edu/epicuria-at-covel/"),
   ("epic-ackerman", "https://dining.ucla.edu/epicuria-at-ackerman/"),
   ("drey", "https://dining.ucla.edu/the-drey/"),
   ("study", "https://dining.ucla.edu/the-study-at-hedrick/"),
   ("rende", "https://dining.ucla.edu/rendezvous/"),
   ("b-cafe", "https://dining.ucla.edu/bruin-cafe/"),
   ("cafe-1919", "https://dining.ucla.edu/cafe-1919/"),
   ("feast", "https://dining.ucla.edu/spice-kitchen/"),
   ("trucks", "https://dining.ucla.edu/meal-swipe-exchange/")]

/-- The `LOCATION_NAME_MAPPING` class constant (lines 36-49). -/
def LOCATION_NAME_MAPPING : List (String × String) :=
  [("Bruin Plate", "b-plate"),
   ("Sproul Dining", "b-plate"),
   ("De Neve Dining", "de-neve"),
   ("Epicuria at Covel", "epic-covel"),
   ("Covel Dining", "epic-covel"),
   ("Epicuria at Ackerman", "epic-ackerman"),
   ("The Drey", "drey"),
   ("The Study at Hedrick", "study"),
   ("Rendezvous", "rende"),
   ("Bruin Café", "b-cafe"),
   ("Café 1919", "cafe-1919"),
   ("Spice Kitchen at Bruin Bowl", "feast")]

/-- `self.DINING_URLS[url_key]` as used by `_fetch_page` (line 164); the
keys passed in the scraper ("hours", "trucks") are always present, so the
default is dead code. -/
def urlFor (key : String) : String := (List.lookup key DINING_URLS).getD ""

/-- An element of the flat anchor/cell sequence that
`_parse_dining_hours_table` walks with `find`/`find_next` (lines 206-245):
an `a[href]` (location anchor) or a `td` (hours cell).  Nodes matching
neither tag are invisible to every `find_next` the parser issues, so they
are omitted from the sequence. -/
inductive HoursElem where
  | anchor (text : String) (href : String)
  | cell (text : String)
deriving DecidableEq, Repr

/-- Predicate of `find_next("a", href=True)` on the flat sequence. -/
def isAnchorHref : HoursElem → Bool
  | .anchor _ _ => true
  | .cell _ => false

/-- Predicate of `find_next("td")` on the flat sequence. -/
def isTd : HoursElem → Bool
  | .cell _ => true
  | .anchor _ _ => false

/-- Visible text of an element (`.text`). -/
def elemText : HoursElem → String
  | .anchor t _ => t
  | .cell t => t

/-- Smallest index `>= start` whose element satisfies `p` (document-order
scan used by `find` from a position). -/
def findIdxFromAux (p : HoursElem → Bool) : List HoursElem → Nat → Option Nat
  | [], _ => none
  | e :: rest, i => if p e then some i else findIdxFromAux p rest (i + 1)

/-- `find` starting at index `start` of the sequence. -/
def findIdxFrom (p : HoursElem → Bool) (es : List HoursElem) (start : Nat) :
    Option Nat :=
  findIdxFromAux p (es.drop start) start

/-- `element.find_next(...)`: first match strictly after index `i`. -/
def findNextIdx (p : HoursElem → Bool) (es : List HoursElem) (i : Nat) :
    Option Nat :=
  findIdxFrom p es (i + 1)

/-- Text of the element at a valid index (only applied to indices returned
by `findIdxFrom`, so the default is dead code). -/
def getText (es : List HoursElem) (i : Nat) : String :=
  match es.get? i with
  | some e => elemText e
  | none => ""

/-- Write `halls[location]["hours"][day] = sched` (lines 238-243).  The
caller has just ensured the location key exists (lines 218-222), so the
`none` branch is dead code. -/
def updateHallHours (st : St) (code day : String) (sched : DaySchedule) : St :=
  match List.lookup code st.data.halls with
  | some h =>
    { st with data := { st.data with
        halls := setEntry st.data.halls code
          { h with hours := setEntry h.hours day sched } } }
  | none => st

/-- `_parse_location_hours` (lines 231-245) at anchor index `i`: find the
four following cells, record their stripped texts under the fixed keys,
and return the index of the next anchor after the fourth cell.  A missing
first cell returns `None` to the loop without mutation (`some (none, st)`);
a missing later cell raises `AttributeError` before the dict assignment
(modelled as `none`, propagated to `scrape_dining_hours`'s `except`). -/
def parse_location_hours (es : List HoursElem) (i : Nat) (code day : String)
    (st : St) : Option (Option Nat × St) :=
  match findNextIdx isTd es i with
  | none => some (none, st)
  | some c1 =>
    match findNextIdx isTd es c1 with
    | none => none
    | some c2 =>
      match findNextIdx isTd es c2 with
      | none => none
      | some c3 =>
        match findNextIdx isTd es c3 with
        | none => none
        | some c4 =>
          let sched : DaySchedule :=
            { breakfast := pystrip (getText es c1),
              lunch := pystrip (getText es c2),
              dinner := pystrip (getText es c3),
              ext_dinner := pystrip (getText es c4) }
          some (findNextIdx isAnchorHref es c4, updateHallHours st code day sched)

/-- The `while current_element and current_element.find_next("td")` loop
of `_parse_dining_hours_table` (lines 210-229).  The cursor is the index
of the current element (`none` = Python `None`).  The Boolean result is
`false` exactly when an `AttributeError` escaped to the caller's
`except`; the returned state carries all mutations made before that
point.  Fuel models the loop counter: on a current element that is not an
anchor the Python loop never advances, which exhausts the fuel (the
initial fuel `es.length + 1` is otherwise sufficient, since the cursor
strictly advances on both anchor branches). -/
def hours_loop (es : List HoursElem) (day : String) :
    Nat → Option Nat → St → St × Bool
  | _, none, st => (st, true)
  | 0, some _, st => (st, false)
  | fuel + 1, some i, st =>
    match findNextIdx isTd es i with
    | none => (st, true)
    | some _ =>
      match es.get? i with
      | some (.anchor text href) =>
        let location_name := pystrip text
        match List.lookup location_name LOCATION_NAME_MAPPING with
        | some abbreviated_name =>
          let st1 :=
            if (List.lookup abbreviated_name st.data.halls).isSome then st
            else { st with data := { st.data with
                halls := setEntry st.data.halls abbreviated_name
                  { link := href, hours := [], menu := none } } }
          match parse_location_hours es i abbreviated_name day st1 with
          | none => (st1, false)
          | some (next, st2) => hours_loop es day fuel next st2
        | none => hours_loop es day fuel (findNextIdx isAnchorHref es i) st
      | _ => hours_loop es day fuel (some i) st

/-- `_parse_dining_hours_table` (lines 206-229): start at the first
anchor of the table (`table.find('a', href=True)`) and run the loop. -/
def parse_dining_hours_table (es : List HoursElem) (day : String) (st : St) :
    St × Bool :=
  hours_loop es day (es.length + 1) (findIdxFrom isAnchorHref es 0) st

/-- `_hours_already_scraped` (lines 198-204): the sentinel hall "drey"
exists and already has an entry for `day`.  (The `"hours" in ...` key
check is statically true here: every `HallRecord` carries an `hours`
dict, as every record the scraper writes does.) -/
def hours_already_scraped (d : DiningData) (day : String) : Bool :=
  match List.lookup "drey" d.halls with
  | some h => (List.lookup day h.hours).isSome
  | none => false

/-- The hours page, abstracted to the one lookup `scrape_dining_hours`
performs on its soup: the flat element sequence of the
`table.dining-hours-table`, or `none` when that table is absent. -/
structure HoursPage where
  table : Option (List HoursElem)
deriving Repr

/-- The trucks page, abstracted to the lookups `scrape_food_truck_hours`
and `_parse_truck_schedules` perform: the `h2.wp-block-heading.alignwide`
week header text (when found) and the `h3.wp-block-heading` location
headings, each with the rows (cell-text lists) of its following `tbody`
when one exists.  (Whitespace text-node children of the `tbody` are
omitted from the row list.) -/
structure TruckHeading where
  text : String
  tbody : Option (List (List String))
deriving Repr

/-- See `TruckHeading`. -/
structure TrucksPage where
  weekHeader : Option String
  headings : List TruckHeading
deriving Repr

/-- Row loop of `_parse_truck_schedules` (lines 290-297): rows with at
least three cells set `trucks[loc][day]` where `day` is the first cell's
text, stripped, lowercased, cut to 3 characters, and the value is the
dict with the two literal slot-label keys. -/
def truckRows (rows : List (List String))
    (sched : List (String × List (String × String))) :
    List (String × List (String × String)) :=
  rows.foldl
    (fun sched cells =>
      if cells.length ≥ 3 then
        let day := ((pystrip (cells.headD "")).toLower).take 3
        setEntry sched day
          [("5 p.m. – 8:30 p.m.", pystrip (cells.getD 1 "")),
           ("10 p.m. – 12 a.m.", pystrip (cells.getD 2 ""))]
      else sched)
    sched

/-- `_parse_truck_schedules` (lines 278-297): for every location heading,
create the location's entry when absent (the membership test is against
the `trucks` dict's location keys; the separately-modelled `week_of` key
never collides with a heading in practice), then fill in the rows of the
following `tbody` when there is one. -/
def parse_truck_schedules (page : TrucksPage) (st : St) : St :=
  page.headings.foldl
    (fun st h =>
      let location_name := (pystrip h.text).toLower
      let locs0 := st.data.trucks.locations
      let locs1 :=
        if (List.lookup location_name locs0).isSome then locs0
        else setEntry locs0 location_name []
      let locs2 :=
        match h.tbody with
        | none => locs1
        | some rows =>
          setEntry locs1 location_name
            (truckRows rows ((List.lookup location_name locs1).getD []))
      { st with data := { st.data with
          trucks := { st.data.trucks with locations := locs2 } } })
    st

/-- `scrape_food_truck_hours` (lines 247-276): fetch the trucks page (a
network failure returns `False`); a missing week header returns `False`;
the stripped header text from character 41 on is the current week; when
it equals the stored `week_of` the function is a no-op returning `True`;
otherwise `week_of` is updated and the schedules are parsed. -/
def scrape_food_truck_hours (page? : Option TrucksPage) (st : St) : Bool × St :=
  let st1 : St := { st with fetched := st.fetched ++ [urlFor "trucks"] }
  match page? with
  | none => (false, st1)
  | some page =>
    match page.weekHeader with
    | none => (false, st1)
    | some wh =>
      let current_week := (pystrip wh).drop 41
      if st1.data.trucks.week_of = some current_week then (true, st1)
      else
        let st2 : St := { st1 with data := { st1.data with
            trucks := { st1.data.trucks with week_of := some current_week } } }
        (true, parse_truck_schedules page st2)

/-- `scrape_dining_hours` (lines 172-196): `_fetch_page('hours')` runs
first and unconditionally (the GET is logged; its failure returns
`False`); then the already-scraped guard returns `True` without touching
the document; a missing hours table returns `False`; otherwise the table
is parsed, a parse `AttributeError` being caught into `False`.
`current_day` is the %A weekday name lowercased and cut to 3 letters,
passed here as a parameter. -/
def scrape_dining_hours (page? : Option HoursPage) (current_day : String)
    (st : St) : Bool × St :=
  let st1 : St := { st with fetched := st.fetched ++ [urlFor "hours"] }
  match page? with
  | none => (false, st1)
  | some page =>
    if hours_already_scraped st1.data current_day then (true, st1)
    else
      match page.table with
      | none => (false, st1)
      | some es =>
        let (st2, ok) := parse_dining_hours_table es current_day st1
        (ok, st2)

/-- One subsection div of the at-a-glance container, abstracted to what
`_parse_menu_container` extracts (lines 380-399): the `h2` header text
(when found) and, when a following `recipe-list` div exists, the optional
`a[href]` target of each `recipe-card`. -/
structure SubSection where
  header : Option String
  recipeList : Option (List (Option String))
deriving Repr

/-- One meal div (`#breakfastmenu` / `#lunchmenu` / `#dinnermenu`) of a
hall menu page: the text of the next `h2` (`none` models
`find_next('h2')` returning `None`, on which `.text` raises), and the div
children of the following at-a-glance container when it exists. -/
structure MealSection where
  mealHeading : Option String
  container : Option (List SubSection)
deriving Repr

/-- A hall menu page, abstracted to the lookups of
`_parse_hall_menu_sections` (lines 343-374): whether `p.dining-status`
(the closure banner) is present, and the meal divs in concatenation order
breakfast ++ lunch ++ dinner. -/
structure MenuPage where
  closedBanner : Bool
  sections : List MealSection
deriving Repr

/-- `''.join(text.split()).lower()` (line 369). -/
def normMeal (s : String) : String :=
  (String.join (s.split Char.isWhitespace)).toLower

/-- `''.join(text.strip().lower().split())` (line 385). -/
def normSection (s : String) : String :=
  String.join (((pystrip s).toLower).split Char.isWhitespace)

/-- Write `halls[hall]` (the hall key is known to be present at every
call site, so the `none` branch is dead code). -/
def setHallRecord (st : St) (hall : String) (h : HallRecord) : St :=
  { st with data := { st.data with halls := setEntry st.data.halls hall h } }

/-- `self.dining_data["halls"][hall]["menu"][day] = dm` (lines 350-351,
359).  Hall and menu keys are present at every call site. -/
def setHallMenuDay (st : St) (hall day : String) (dm : DayMenu) : St :=
  match List.lookup hall st.data.halls with
  | none => st
  | some h =>
    setHallRecord st hall { h with menu := some (setEntry (h.menu.getD []) day dm) }

/-- `menu[day][meal_type] = secs` (line 370): update the meal-type key of
the existing day entry. -/
def setMealEntry (st : St) (hall day meal_type : String)
    (secs : List (String × List String)) : St :=
  match List.lookup hall st.data.halls with
  | none => st
  | some h =>
    let m := h.menu.getD []
    let dm := (List.lookup day m).getD { isOpen := true, meals := [] }
    setHallMenuDay st hall day
      { dm with meals := setEntry dm.meals meal_type secs }

/-- `menu[day][meal_type][section_name] = item_ids` (line 401). -/
def setSectionEntry (st : St) (hall day meal_type section_name : String)
    (ids : List String) : St :=
  match List.lookup hall st.data.halls with
  | none => st
  | some h =>
    let m := h.menu.getD []
    let dm := (List.lookup day m).getD { isOpen := true, meals := [] }
    let secs := (List.lookup meal_type dm.meals).getD []
    let meals1 := setEntry dm.meals meal_type (setEntry secs section_name ids)
    setHallMenuDay st hall day { dm with meals := meals1 }

/-- The `for item_id, item_link in zip(item_ids, item_links)` loop
(lines 404-405): resolve each pair, discarding the Boolean result.
(As in the source, the id list was filtered for a digit match while the
link list was not, so the zip can pair ids with earlier links.)  `none`
propagates resolver fuel exhaustion. -/
def scrape_zipped_items (fetch : String → Option ItemPage) (fuel : Nat) :
    List (String × String) → St → Option St
  | [], st => some st
  | (item_id, item_link) :: rest, st =>
    match scrape_menu_item fetch fuel st item_id item_link with
    | none => none
    | some (_, st1) => scrape_zipped_items fetch fuel rest st1

/-- `_parse_menu_container` (lines 376-405): walk the container's div
children; a child without an `h2` header or without a following
`recipe-list` contributes nothing; otherwise the section's ordered
item-id list is stored and each id/link pair is resolved. -/
def parse_menu_container (fetch : String → Option ItemPage) (fuel : Nat)
    (hall day meal_type : String) :
    List SubSection → St → Option St
  | [], st => some st
  | sec :: rest, st =>
    match sec.header with
    | none => parse_menu_container fetch fuel hall day meal_type rest st
    | some htext =>
      let section_name := normSection htext
      match sec.recipeList with
      | none => parse_menu_container fetch fuel hall day meal_type rest st
      | some cards =>
        let item_links := (cards.filterMap id).map (fun href => siteRoot ++ href)
        let item_ids := item_links.filterMap firstDigitRun
        let st1 := setSectionEntry st hall day meal_type section_name item_ids
        match scrape_zipped_items fetch fuel (item_ids.zip item_links) st1 with
        | none => none
        | some st2 => parse_menu_container fetch fuel hall day meal_type rest st2

/-- The `for section in menu_sections` loop of `_parse_hall_menu_sections`
(lines 368-374).  A meal div whose `find_next('h2')` is `None` raises an
uncaught `AttributeError` (modelled `none`, aborting the whole run, since
`_scrape_single_hall_menu` catches only `RequestException`). -/
def parse_meal_sections (fetch : String → Option ItemPage) (fuel : Nat)
    (hall day : String) : List MealSection → St → Option St
  | [], st => some st
  | sec :: rest, st =>
    match sec.mealHeading with
    | none => none
    | some htext =>
      let meal_type := normMeal htext
      let st1 := setMealEntry st hall day meal_type []
      match sec.container with
      | none => parse_meal_sections fetch fuel hall day rest st1
      | some subs =>
        match parse_menu_container fetch fuel hall day meal_type subs st1 with
        | none => none
        | some st2 => parse_meal_sections fetch fuel hall day rest st2

/-- `_parse_hall_menu_sections` (lines 343-374): create the hall's
`"menu"` dict when absent; if the day already has an entry, log and
return with nothing changed; otherwise seed `{open: True}`, handle the
closure banner (`{open: False}`), else walk the meal sections. -/
def parse_hall_menu_sections (fetch : String → Option ItemPage) (fuel : Nat)
    (page : MenuPage) (hall day : String) (st : St) : Option St :=
  match List.lookup hall st.data.halls with
  | none => some st
  | some h =>
    let st1 :=
      match h.menu with
      | some _ => st
      | none => setHallRecord st hall { h with menu := some [] }
    let m0 := match h.menu with | some m => m | none => []
    if (List.lookup day m0).isSome then some st1
    else
      let st2 := setHallMenuDay st1 hall day { isOpen := true, meals := [] }
      if page.closedBanner then
        some (setHallMenuDay st2 hall day { isOpen := false, meals := [] })
      else
        parse_meal_sections fetch fuel hall day page.sections st2

/-- Calendar dates are modelled as integer day numbers (an abstraction of
the `%Y-%m-%d` strings, one per day); this renders one such day number as
the date-string key used in URLs and as menu keys. -/
def dateStr (d : Int) : String := toString d

/-- The upstream world a collection run sees, bundling every network
response plus the clock readings `datetime.now()` provides: the hours and
trucks pages (`none` = request failure), the menu page per hall and date,
the item detail page per URL, the current 3-letter weekday, today's day
number, the timestamp written by `save_to_s3`, whether the S3 put
succeeds, and the resolver fuel (model artifact bounding recursion
depth). -/
structure ScrapeEnv where
  hoursPage : Option HoursPage
  trucksPage : Option TrucksPage
  menuPages : String → Int → Option MenuPage
  itemPages : String → Option ItemPage
  currentDay : String
  today : Int
  now : String
  saveOk : Bool
  itemFuel : Nat

/-- `_scrape_single_hall_menu` (lines 322-341): an unknown hall returns
`False` without a fetch; otherwise GET `{hall_url}/?date={date}` (logged;
request failure returns `False`) and parse.  `none` = an uncaught parse
exception or resolver fuel exhaustion. -/
def scrape_single_hall_menu (env : ScrapeEnv) (hall : String) (date : Int)
    (st : St) : Option (Bool × St) :=
  match List.lookup hall st.data.halls with
  | none => some (false, st)
  | some h =>
    let url := h.link ++ "/?date=" ++ dateStr date
    let st1 : St := { st with fetched := st.fetched ++ [url] }
    match env.menuPages hall date with
    | none => some (false, st1)
    | some page =>
      match parse_hall_menu_sections env.itemPages env.itemFuel page hall
          (dateStr date) st1 with
      | none => none
      | some st2 => some (true, st2)

/-- `range(-1, 6)` as a list of `Int`s. -/
def pyRange (a b : Int) : List Int :=
  (List.range (b - a).toNat).map (fun k => a + (k : Int))

/-- `dates_to_scrape` (lines 309-312): `datetime.now() + timedelta(days=i)`
for `i in range(-1, 6)`. -/
def dates_to_scrape (today : Int) : List Int :=
  (pyRange (-1) 6).map (fun i => today + i)

/-- The default hall list of `scrape_hall_menus` (lines 302-305). -/
def defaultHalls : List String :=
  ["b-plate", "de-neve", "epic-covel", "epic-ackerman",
   "drey", "study", "rende", "b-cafe", "cafe-1919", "feast"]

/-- The nested hall/date loop of `scrape_hall_menus` (lines 308-315),
counting successful single-hall-menu scrapes. -/
def menu_run_fold (env : ScrapeEnv) :
    List (String × Int) → Nat × St → Option (Nat × St)
  | [], acc => some acc
  | (hall, date) :: rest, (n, st) =>
    match scrape_single_hall_menu env hall date st with
    | none => none
    | some (ok, st1) => menu_run_fold env rest (if ok then n + 1 else n, st1)

/-- `scrape_hall_menus` (lines 299-320): for each hall, scrape the
rolling date window; `success_count` is then divided by 7 (Python float
division, which preserves positivity) and the run reports success iff
the quotient — hence the count — is positive. -/
def scrape_hall_menus (env : ScrapeEnv) (halls? : Option (List String))
    (st : St) : Option (Bool × St) :=
  let halls := halls?.getD defaultHalls
  let pairs := halls.flatMap (fun h => (dates_to_scrape env.today).map (h, ·))
  match menu_run_fold env pairs (0, st) with
  | none => none
  | some (n, st1) => some (decide (0 < n), st1)

/-- `scrape_all_data` (lines 527-539): hours, trucks, menus in order;
overall success is the conjunction.  `none` = an uncaught exception in
menu parsing (which nothing in the chain catches). -/
def scrape_all_data (env : ScrapeEnv) (st : St) : Option (Bool × St) :=
  let (ok1, st1) := scrape_dining_hours env.hoursPage env.currentDay st
  let (ok2, st2) := scrape_food_truck_hours env.trucksPage st1
  match scrape_hall_menus env none st2 with
  | none => none
  | some (ok3, st3) => some (ok1 && ok2 && ok3, st3)

/-- `save_to_s3` (lines 81-104): stamps `last_updated` and uploads; an S3
exception yields `False` (with the stamp already applied).  The persisted
blob, when the put succeeds, is returned alongside. -/
def save_to_s3 (env : ScrapeEnv) (st : St) : Bool × St × Option DiningData :=
  let stamped : DiningData := { st.data with last_updated := some env.now }
  let st1 : St := { st with data := stamped }
  if env.saveOk then (true, st1, some stamped) else (false, st1, none)

/-- `update_and_save` (lines 541-547): `load_from_s3` replaces the
in-memory document on success and leaves it untouched on failure — its
Boolean result is discarded (line 543).  Then everything is scraped, and
only an overall success triggers `save_to_s3`.  The third component is
what got persisted (`none` when nothing was). -/
def update_and_save (env : ScrapeEnv) (loadResult : Option DiningData)
    (st : St) : Option (Bool × St × Option DiningData) :=
  let st1 : St :=
    match loadResult with
    | some d => { st with data := d }
    | none => st
  match scrape_all_data env st1 with
  | none => none
  | some (success, st2) =>
    if success then some (save_to_s3 env st2) else some (false, st2, none)

/-- A Python `AttributeError` on reading a missing instance attribute. -/
inductive PyError where
  | attributeError (attr : String)
deriving DecidableEq, Repr

/-- The scraper's instance-attribute state.  The only attributes any
method of `UCLADiningScraper` ever assigns are `current_soup`
(lines 52, 166) and `dining_data` (lines 53, 111, 133); in particular no
code path defines `menu_items`. -/
structure ScraperState where
  dining_data : DiningData
  hasCurrentSoup : Bool

/-- The attribute read `self.menu_items`: since `menu_items` is in no
method's assignment set (see `ScraperState`), the lookup always raises. -/
def menuItemsAttr (_s : ScraperState) :
    Except PyError (List (String × List (String × ItemRecord))) :=
  Except.error (PyError.attributeError "menu_items")

/-- `get_item_data` (lines 156-158): evaluates
`self.menu_items["items"].get(item_id)`; the leading attribute read
raises before the subscript and `.get` are reached. -/
def get_item_data (s : ScraperState) (item_id : String) :
    Except PyError (Option ItemRecord) :=
  match menuItemsAttr s with
  | Except.error e => Except.error e
  | Except.ok m => Except.ok ((List.lookup "items" m).getD [] |> List.lookup item_id)

/-- Fixture: a document already holding item "42" (memo-hit scenario). -/
def stMemo : St :=
  { emptySt with data :=
      { emptyData with items := [("42", ItemRecord.custom "Pasta Bar" [])] } }

/-- Fixture: a two-item ingredient cycle.  Item 111's detail page is a
composite whose only ingredient links back to item 222, and vice versa;
neither page has a nutrition section, so both take the composite path. -/
def cycFetch : String → Option ItemPage := fun url =>
  if url = "https://dining.ucla.edu/r/111" then
    some { headline := some "Cyclic A", labelsDiv := none, nutrition := none,
           ingredientGroups := [{ header := some "Choice", links := [some "/r/222"] }] }
  else if url = "https://dining.ucla.edu/r/222" then
    some { headline := some "Cyclic B", labelsDiv := none, nutrition := none,
           ingredientGroups := [{ header := some "Choice", links := [some "/r/111"] }] }
  else none

/-- Resolution of item 111 over the cyclic graph terminates, i.e. some
finite recursion budget suffices for `_scrape_menu_item` to return. -/
def cyc_resolves : Prop :=
  ∃ fuel, (scrape_menu_item cycFetch fuel emptySt "111"
    "https://dining.ucla.edu/r/111").isSome

/-- Fixture: composites 1 and 2 each reference ingredient 4, whose page
is unreachable (network failure). -/
def sharedIngFetch : String → Option ItemPage := fun url =>
  if url = "https://dining.ucla.edu/r/1" then
    some { headline := some "Bowl A", labelsDiv := none, nutrition := none,
           ingredientGroups := [{ header := some "Protein", links := [some "/r/4"] }] }
  else if url = "https://dining.ucla.edu/r/2" then
    some { headline := some "Bowl B", labelsDiv := none, nutrition := none,
           ingredientGroups := [{ header := some "Protein", links := [some "/r/4"] }] }
  else none

/-- Fixture: an upstream world where every single request fails. -/
def envNoNet : ScrapeEnv :=
  { hoursPage := none
    trucksPage := none
    menuPages := fun _ _ => none
    itemPages := fun _ => none
    currentDay := "sun"
    today := 0
    now := "2026-10-12T00:00:00"
    saveOk := true
    itemFuel := 3 }

/-- Fixture: a document where the sentinel hall "drey" already has hours
recorded for "sun". -/
def stDrey : St :=
  { emptySt with data := { emptyData with halls :=
      [("drey", { link := "https://dining.ucla.edu/the-drey/",
                  hours := [("sun", { breakfast := "7 a.m. - 10 a.m.",
                                      lunch := "11 a.m. - 2 p.m.",
                                      dinner := "5 p.m. - 9 p.m.",
                                      ext_dinner := "Closed" })],
                  menu := none })] } }

/-- Fixture: a trucks page whose stripped week header, from character 41
on, reads "10/6".  (The prefix is the 41-character boilerplate heading.) -/
def pageWeek : TrucksPage :=
  { weekHeader := some "Food Truck Meal Swipe Exchange for Week of 10/6"
    headings := [{ text := "The Bruin Bowl", tbody := some [["Monday", "Taco Truck", "Burger Truck"]] }] }

/-- Fixture: a document whose stored `week_of` already equals the week
label `pageWeek` carries (stripped text from character 41 on). -/
def stWeek : St :=
  { emptySt with data := { emptyData with trucks :=
      { week_of := some ((pystrip "Food Truck Meal Swipe Exchange for Week of 10/6").drop 41)
        locations := [("older truck", [("mon", [("5 p.m. – 8:30 p.m.", "x"),
                                                ("10 p.m. – 12 a.m.", "y")])])] } } }

/-- Fixture: b-plate already has a recorded menu for day 5. -/
def hallMenuDone : HallRecord :=
  { link := "https://dining.ucla.edu/bruin-plate"
    hours := []
    menu := some [(dateStr 5, { isOpen := true,
                                meals := [("lunch", [("grill", ["777"])])] })] }

/-- Fixture: document holding `hallMenuDone`. -/
def stMenuDone : St :=
  { emptySt with data := { emptyData with halls := [("b-plate", hallMenuDone)] } }

/-- First run over `sharedIngFetch`: resolve composite 1.  The second
projection default is dead code (the run returns `some`). -/
def stShared1 : St :=
  ((scrape_menu_item sharedIngFetch 5 emptySt "1"
    "https://dining.ucla.edu/r/1").getD (false, emptySt)).2

/-- Second run over `sharedIngFetch`: resolve composite 2 from the state
the first run left. -/
def stShared2 : St :=
  ((scrape_menu_item sharedIngFetch 5 stShared1 "2"
    "https://dining.ucla.edu/r/2").getD (false, emptySt)).2

theorem lookup_setEntry {α : Type} (m : List (String × α)) (k k2 : String)
    (v : α) :
    List.lookup k (setEntry m k2 v) =
      if k = k2 then some v else List.lookup k m := by
  induction m with
  | nil =>
    cases hb : (k == k2) with
    | false =>
      have hne : ¬ k = k2 := ne_of_beq_false hb
      simp [setEntry, List.lookup, hb, hne]
    | true =>
      have heq : k = k2 := eq_of_beq hb
      simp [setEntry, List.lookup, hb, heq]
  | cons hd tl ih =>
    obtain ⟨k1, v1⟩ := hd
    cases hc : (k1 == k2) with
    | true =>
      have h12 : k1 = k2 := eq_of_beq hc
      subst h12
      cases hb : (k == k1) with
      | true =>
        have heq : k = k1 := eq_of_beq hb
        simp [setEntry, List.lookup, hc, hb, heq]
      | false =>
        have hne : ¬ k = k1 := ne_of_beq_false hb
        simp [setEntry, List.lookup, hc, hb, hne]
    | false =>
      cases hb : (k == k1) with
      | true =>
        have heq : k = k1 := eq_of_beq hb
        have hne2 : ¬ k = k2 := heq ▸ ne_of_beq_false hc
        simp [setEntry, List.lookup, hc, hb, hne2]
      | false =>
        by_cases hk2 : k = k2
        · subst hk2
          simp [setEntry, List.lookup, hc, hb, ih]
        · simp [setEntry, List.lookup, hc, hb, hk2, ih]

theorem lookup_setEntry_self {α : Type} (m : List (String × α)) (k : String)
    (v : α) : List.lookup k (setEntry m k v) = some v := by
  simp [lookup_setEntry]

theorem lookup_setEntry_isSome {α : Type} (m : List (String × α))
    (k k2 : String) (v : α) (h : (List.lookup k m).isSome) :
    (List.lookup k (setEntry m k2 v)).isSome := by
  by_cases hk : k = k2 <;> simp [lookup_setEntry, hk, h]

/-- C1.  For every item-id already a key of `items`, `_scrape_menu_item`
with that id performs zero network calls, leaves the whole document (and
the fetch trace) unchanged, and returns success immediately. -/
theorem resolver_memo_hit_is_noop (fetch : String → Option ItemPage)
    (fuel : Nat) (st : St) (itemId url : String)
    (h : (List.lookup itemId st.data.items).isSome) :
    scrape_menu_item fetch (fuel + 1) st itemId url = some (true, st) := by
  simp [scrape_menu_item, h]

/-- Witness for C1 at a concrete memoized document. -/
theorem resolver_memo_hit_is_noop_case :
    scrape_menu_item (fun _ => none) 1 stMemo "42" "u" = some (true, stMemo) :=
  resolver_memo_hit_is_noop (fun _ => none) 0 stMemo "42" "u" (by decide)

/-- C10.  `get_item_data` reads the never-assigned attribute
`menu_items`, so it raises `AttributeError` for every item-id instead of
returning the stored record or `None`. -/
theorem get_item_data_always_raises_attribute_error (s : ScraperState)
    (item_id : String) :
    get_item_data s item_id =
      Except.error (PyError.attributeError "menu_items") := rfl

/-- C6 counterexample.  The claimed window reaches six days ahead of
today, but the date six days ahead is not attempted (while one day before
today is): the source iterates `range(-1, 6)`, i.e. offsets -1..5. -/
theorem menu_window_misses_day_six :
    ((0 : Int) + 6 ∉ dates_to_scrape 0) ∧ ((0 : Int) - 1 ∈ dates_to_scrape 0) := by
  decide

/-- C6 amended.  For every hall the run attempts exactly the dates from
one day before today through FIVE days ahead, inclusive — a 7-day
window. -/
theorem menu_window_is_minus_one_to_plus_five (today : Int) :
    dates_to_scrape today =
      [today - 1, today, today + 1, today + 2, today + 3, today + 4, today + 5] := by
  have h : pyRange (-1) 6 = [-1, 0, 1, 2, 3, 4, 5] := by decide
  simp only [dates_to_scrape, h, List.map, List.cons.injEq, and_true]
  omega

/-- C8.  When the trucks page's extracted week label equals the stored
`week_of`, the collector parses no schedule table bodies, leaves the
whole document — `trucks` and `week_of` included — unchanged, and
returns success (the page itself having been fetched beforehand). -/
theorem truck_week_guard_is_noop (page : TrucksPage) (st : St) (wh : String)
    (hwh : page.weekHeader = some wh)
    (hweek : st.data.trucks.week_of = some ((pystrip wh).drop 41)) :
    scrape_food_truck_hours (some page) st =
      (true, { st with fetched := st.fetched ++ [urlFor "trucks"] }) := by
  simp [scrape_food_truck_hours, hwh, hweek]

/-- Witness for C8 at a concrete page and document. -/
theorem truck_week_guard_is_noop_case :
    scrape_food_truck_hours (some pageWeek) stWeek =
      (true, { stWeek with fetched := stWeek.fetched ++ [urlFor "trucks"] }) :=
  truck_week_guard_is_noop pageWeek stWeek
    "Food Truck Meal Swipe Exchange for Week of 10/6" rfl rfl

/-- C9 counterexample.  With the initial S3 load failing, the run does
not abort: both the hours page and the trucks page are still requested
(two network calls), so collectors execute after a failed load. -/
theorem load_failure_does_not_abort_run :
    update_and_save envNoNet none emptySt =
      some (false, { data := emptyData, fetched := [urlFor "hours", urlFor "trucks"] },
        none) ∧
    [urlFor "hours", urlFor "trucks"] ≠ ([] : List String) := by
  constructor
  · rfl
  · decide

/-- C9 amended.  A failed initial load is silently ignored
(`load_from_s3`'s Boolean result is discarded): the run proceeds with the
prior in-memory document and behaves exactly as if the load had returned
that same document, executing every collector. -/
theorem load_failure_equals_loading_current_snapshot (env : ScrapeEnv)
    (st : St) :
    update_and_save env none st = update_and_save env (some st.data) st := rfl

/-- C7 counterexample.  With the current weekday's hours already fully
recorded for the sentinel hall "drey", the Hours Collector still performs
a network call: `_fetch_page('hours')` runs before the guard, so the
fetch trace grows by the hours-page URL instead of staying empty. -/
theorem hours_guard_still_fetches_page :
    (scrape_dining_hours (some { table := some [] }) "sun" stDrey).2.fetched =
      [urlFor "hours"] ∧
    [urlFor "hours"] ≠ ([] : List String) := by
  constructor
  · rfl
  · decide

/-- C7 amended.  When the current weekday's hours are already fully
recorded for the sentinel hall, the Hours Collector skips parsing and
returns success without mutating the document — but only after the hours
page has already been fetched once (and if that fetch fails the collector
returns failure instead). -/
theorem hours_guard_skips_parse_not_fetch (page : HoursPage) (day : String)
    (st : St) (h : hours_already_scraped st.data day = true) :
    scrape_dining_hours (some page) day st =
      (true, { st with fetched := st.fetched ++ [urlFor "hours"] }) := by
  simp [scrape_dining_hours, h]

/-- Witness for the amended C7 at the `stDrey` fixture. -/
theorem hours_guard_skips_parse_not_fetch_case :
    scrape_dining_hours (some { table := some [] }) "sun" stDrey =
      (true, { stDrey with fetched := stDrey.fetched ++ [urlFor "hours"] }) :=
  hours_guard_skips_parse_not_fetch { table := some [] } "sun" stDrey (by decide)

/-- C4.  Once `halls[hall].menu[date]` exists, a later run of the menu
collector over the same hall and date leaves the whole document — that
entry included — exactly as it was: only the fetch trace grows by the
menu-page URL. -/
theorem menu_day_entry_preserved_on_rescrape (env : ScrapeEnv)
    (hall : String) (date : Int) (st : St) (h : HallRecord)
    (m : List (String × DayMenu))
    (hh : List.lookup hall st.data.halls = some h)
    (hm : h.menu = some m)
    (hd : (List.lookup (dateStr date) m).isSome) :
    ∃ b, scrape_single_hall_menu env hall date st =
      some (b, { st with fetched :=
        st.fetched ++ [h.link ++ "/?date=" ++ dateStr date] }) := by
  unfold scrape_single_hall_menu
  rw [hh]
  cases hmp : env.menuPages hall date with
  | none => exact ⟨false, rfl⟩
  | some page =>
    refine ⟨true, ?_⟩
    simp [parse_hall_menu_sections, hh, hm, hd]

/-- Witness for C4 at the `stMenuDone` fixture. -/
theorem menu_day_entry_preserved_on_rescrape_case :
    ∃ b, scrape_single_hall_menu envNoNet "b-plate" 5 stMenuDone =
      some (b, { stMenuDone with fetched :=
        stMenuDone.fetched ++ [hallMenuDone.link ++ "/?date=" ++ dateStr 5] }) :=
  menu_day_entry_preserved_on_rescrape envNoNet "b-plate" 5 stMenuDone
    hallMenuDone
    [(dateStr 5, { isOpen := true, meals := [("lunch", [("grill", ["777"])])] })]
    rfl rfl (by decide)

theorem lookup_nil_str {α : Type} (k : String) :
    List.lookup k ([] : List (String × α)) = none := rfl

theorem lookup_cons_self {α : Type} (k : String) (v : α)
    (tl : List (String × α)) : List.lookup k ((k, v) :: tl) = some v := by
  simp [List.lookup]

/-- C5.  Over the flat sequence "recognized anchor L1, four cells,
unrecognized anchor L2, four cells", the hours parser records exactly
L1's four cell texts, whitespace-trimmed, under the mapped hall's
`hours[day]` in the fixed field order breakfast/lunch/dinner/ext_dinner,
and records nothing at all for L2: no hall entry is created for the
unrecognized name and none of its cells leak into another hall. -/
theorem hours_parse_records_only_recognized_location
    (L1 href1 t1 t2 t3 t4 L2 href2 t5 t6 t7 t8 day code : String)
    (hrec : List.lookup (pystrip L1) LOCATION_NAME_MAPPING = some code)
    (hunrec : List.lookup (pystrip L2) LOCATION_NAME_MAPPING = none) :
    parse_dining_hours_table
      [.anchor L1 href1, .cell t1, .cell t2, .cell t3, .cell t4,
       .anchor L2 href2, .cell t5, .cell t6, .cell t7, .cell t8] day emptySt =
    ({ data := { emptyData with halls := [(code,
        { link := href1,
          hours := [(day, { breakfast := pystrip t1, lunch := pystrip t2,
                            dinner := pystrip t3, ext_dinner := pystrip t4 })],
          menu := none })] },
       fetched := [] }, true) := by
  simp [parse_dining_hours_table, hours_loop, findNextIdx, findIdxFrom,
    findIdxFromAux, parse_location_hours, updateHallHours, getText, elemText,
    isTd, isAnchorHref, hrec, hunrec, setEntry, emptySt, emptyData,
    lookup_nil_str, lookup_cons_self]

/-- Witness for C5: "Bruin Plate" is recognized (code "b-plate"),
"Mystery Hall" is not. -/
theorem hours_parse_records_only_recognized_location_case :
    parse_dining_hours_table
      [.anchor "Bruin Plate" "https://dining.ucla.edu/bruin-plate/",
       .cell " 7:00 a.m. - 10:00 a.m. ", .cell "11:30 a.m. - 2:00 p.m.",
       .cell "5:00 p.m. - 9:00 p.m.", .cell "Closed",
       .anchor "Mystery Hall" "https://dining.ucla.edu/mystery/",
       .cell "1", .cell "2", .cell "3", .cell "4"] "sun" emptySt =
    ({ data := { emptyData with halls := [("b-plate",
        { link := "https://dining.ucla.edu/bruin-plate/",
          hours := [("sun",
            { breakfast := pystrip " 7:00 a.m. - 10:00 a.m. ",
              lunch := pystrip "11:30 a.m. - 2:00 p.m.",
              dinner := pystrip "5:00 p.m. - 9:00 p.m.",
              ext_dinner := pystrip "Closed" })],
          menu := none })] },
       fetched := [] }, true) :=
  hours_parse_records_only_recognized_location
    "Bruin Plate" "https://dining.ucla.edu/bruin-plate/"
    " 7:00 a.m. - 10:00 a.m. " "11:30 a.m. - 2:00 p.m."
    "5:00 p.m. - 9:00 p.m." "Closed"
    "Mystery Hall" "https://dining.ucla.edu/mystery/" "1" "2" "3" "4"
    "sun" "b-plate" (by decide) (by decide)

theorem cyc_key : ∀ (fuel : Nat) (st : St), st.data.items = [] →
    scrape_menu_item cycFetch fuel st "111" "https://dining.ucla.edu/r/111" = none ∧
    scrape_menu_item cycFetch fuel st "222" "https://dining.ucla.edu/r/222" = none := by
  intro fuel
  induction fuel with
  | zero => intro st hst; exact ⟨rfl, rfl⟩
  | succ n ih =>
    intro st hst
    have happA : siteRoot ++ "/r/111" = "https://dining.ucla.edu/r/111" := rfl
    have happB : siteRoot ++ "/r/222" = "https://dining.ucla.edu/r/222" := rfl
    have hfdA : firstDigitRun "/r/111" = some "111" := by decide
    have hfdB : firstDigitRun "/r/222" = some "222" := by decide
    have hcfA : cycFetch "https://dining.ucla.edu/r/111" =
        some { headline := some "Cyclic A", labelsDiv := none, nutrition := none,
               ingredientGroups := [{ header := some "Choice", links := [some "/r/222"] }] } := rfl
    have hcfB : cycFetch "https://dining.ucla.edu/r/222" =
        some { headline := some "Cyclic B", labelsDiv := none, nutrition := none,
               ingredientGroups := [{ header := some "Choice", links := [some "/r/111"] }] } := rfl
    constructor
    · have h222 := (ih { st with fetched := st.fetched ++ ["https://dining.ucla.edu/r/111"] } hst).2
      simp only [scrape_menu_item, hst, lookup_nil_str, Option.isSome_none,
        Bool.false_eq_true, if_false, hcfA, parse_standard_item,
        scrape_ingredient_groups, scrape_ingredient_links, hfdB, happB, h222]
    · have h111 := (ih { st with fetched := st.fetched ++ ["https://dining.ucla.edu/r/222"] } hst).1
      simp only [scrape_menu_item, hst, lookup_nil_str, Option.isSome_none,
        Bool.false_eq_true, if_false, hcfB, parse_standard_item,
        scrape_ingredient_groups, scrape_ingredient_links, hfdA, happA, h111]

/-- C2 counterexample.  On the two-item cyclic ingredient graph
`cycFetch`, `_scrape_menu_item` never returns, however large the
recursion budget: the memoization guard does not protect against a page
referring back to an ancestor that is still being resolved, because the
ancestor's id is only written to `items` after its ingredient loop
finishes. -/
theorem cyclic_ingredient_graph_never_resolves : ¬ cyc_resolves := by
  rintro ⟨fuel, h⟩
  rw [(cyc_key fuel emptySt rfl).1] at h
  simp at h

theorem scrape_ingredient_links_isSome
    (resolve : St → String → String → Option (Bool × St)) (label : String) :
    ∀ (ls : List (Option String)) (ings : List (String × List String)) (st : St),
      (∀ (st2 : St) (href ingId : String), some href ∈ ls →
        firstDigitRun href = some ingId →
        (resolve st2 ingId (siteRoot ++ href)).isSome) →
      (scrape_ingredient_links resolve label ls ings st).isSome := by
  intro ls
  induction ls with
  | nil => intro ings st _; simp [scrape_ingredient_links]
  | cons hd tl ih =>
    intro ings st hres
    cases hd with
    | none =>
      exact ih ings st fun st2 href ingId hm hfd =>
        hres st2 href ingId (List.mem_cons_of_mem _ hm) hfd
    | some href =>
      simp only [scrape_ingredient_links]
      cases hfd : firstDigitRun href with
      | none =>
        exact ih ings st fun st2 h2 ingId hm h3 =>
          hres st2 h2 ingId (List.mem_cons_of_mem _ hm) h3
      | some ingId =>
        have h1 := hres st href ingId (List.mem_cons_self _ _) hfd
        obtain ⟨⟨b, st1⟩, heq⟩ := Option.isSome_iff_exists.mp h1
        simp only [heq]
        exact ih _ st1 fun st2 h2 ingId2 hm h3 =>
          hres st2 h2 ingId2 (List.mem_cons_of_mem _ hm) h3

theorem scrape_ingredient_groups_isSome
    (resolve : St → String → String → Option (Bool × St)) :
    ∀ (gs : List IngGroup) (ings : List (String × List String)) (st : St),
      (∀ (st2 : St) (g : IngGroup) (href ingId : String), g ∈ gs →
        some href ∈ g.links → firstDigitRun href = some ingId →
        (resolve st2 ingId (siteRoot ++ href)).isSome) →
      (scrape_ingredient_groups resolve gs ings st).isSome := by
  intro gs
  induction gs with
  | nil => intro ings st _; simp [scrape_ingredient_groups]
  | cons g rest ih =>
    intro ings st hres
    cases hh : g.header with
    | none =>
      simp only [scrape_ingredient_groups, hh]
      exact ih ings st fun st2 g2 href ingId hm h2 h3 =>
        hres st2 g2 href ingId (List.mem_cons_of_mem _ hm) h2 h3
    | some htext =>
      simp only [scrape_ingredient_groups, hh]
      have hlinks := scrape_ingredient_links_isSome resolve (pystrip htext)
        g.links (setEntry ings (pystrip htext) []) st
        (fun st2 href ingId hm hfd =>
          hres st2 g href ingId (List.mem_cons_self _ _) hm hfd)
      obtain ⟨⟨ings1, st1⟩, heq⟩ := Option.isSome_iff_exists.mp hlinks
      rw [heq]
      exact ih ings1 st1 fun st2 g2 href ingId hm h2 h3 =>
        hres st2 g2 href ingId (List.mem_cons_of_mem _ hm) h2 h3

/-- C2 amended.  Composite resolution terminates on every ingredient
graph that admits a ranking (a depth measure strictly decreasing along
ingredient links — equivalently, an acyclic reachable page graph): with
any recursion budget above the root's depth, `_scrape_menu_item`
returns.  On a true cycle, by contrast, it diverges (see the
counterexample). -/
theorem resolver_terminates_on_ranked_graphs
    (fetch : String → Option ItemPage) (depth : String → Nat)
    (hrank : ∀ (url : String) (page : ItemPage) (g : IngGroup) (href : String),
      fetch url = some page → g ∈ page.ingredientGroups → some href ∈ g.links →
      depth (siteRoot ++ href) < depth url) :
    ∀ (fuel : Nat) (url : String) (st : St) (itemId : String),
      depth url < fuel → (scrape_menu_item fetch fuel st itemId url).isSome := by
  intro fuel
  induction fuel with
  | zero => intro url st itemId h; exact absurd h (Nat.not_lt_zero _)
  | succ n ih =>
    intro url st itemId h
    simp only [scrape_menu_item]
    by_cases hmem : (List.lookup itemId st.data.items).isSome
    · simp [hmem]
    · simp only [hmem, Bool.false_eq_true, if_false]
      cases hf : fetch url with
      | none => simp [hf]
      | some page =>
        simp only [hf]
        cases hps : parse_standard_item page with
        | some info => simp [hps]
        | none =>
          simp only [hps]
          cases hhl : page.headline with
          | none => simp [hhl]
          | some nm =>
            simp only [hhl]
            have hgroups := scrape_ingredient_groups_isSome
              (fun s i u => scrape_menu_item fetch n s i u)
              page.ingredientGroups []
              { st with fetched := st.fetched ++ [url] }
              (fun st2 g href ingId hg hm _ =>
                ih (siteRoot ++ href) st2 ingId
                  (lt_of_lt_of_le (hrank url page g href hf hg hm)
                    (Nat.lt_succ_iff.mp h)))
            obtain ⟨⟨ings, st2⟩, heq⟩ := Option.isSome_iff_exists.mp hgroups
            simp [heq]

/-- Witness for the amended C2: with no reachable page at all, depth 0
and budget 1 suffice. -/
theorem resolver_terminates_on_ranked_graphs_case :
    (scrape_menu_item (fun _ => none) 1 emptySt "9" "u").isSome :=
  resolver_terminates_on_ranked_graphs (fun _ => none) (fun _ => 0)
    (fun _ _ _ _ hfetch _ _ => Option.noConfusion hfetch)
    1 "u" emptySt "9" (by decide)

/-- C3 counterexample.  Composites 1 and 2 both resolve successfully
over `sharedIngFetch`, yet their listed ingredient 4 — whose page fetch
fails — is absent from `items` afterwards, and its detail page was
fetched twice within the run (once per referencing composite): the
recursive resolution's failure is ignored and failed ids are not
memoized. -/
theorem composite_success_despite_missing_refetched_ingredient :
    (scrape_menu_item sharedIngFetch 5 emptySt "1"
      "https://dining.ucla.edu/r/1").map Prod.fst = some true ∧
    (scrape_menu_item sharedIngFetch 5 stShared1 "2"
      "https://dining.ucla.edu/r/2").map Prod.fst = some true ∧
    List.lookup "4" stShared2.data.items = none ∧
    stShared2.fetched.count "https://dining.ucla.edu/r/4" = 2 := by decide

theorem scrape_ingredient_links_mono
    (resolve : St → String → String → Option (Bool × St)) (label : String)
    (hres : ∀ (st1 : St) (i u : String) (b : Bool) (st2 : St),
      resolve st1 i u = some (b, st2) →
      ∀ k, (List.lookup k st1.data.items).isSome →
        (List.lookup k st2.data.items).isSome) :
    ∀ (ls : List (Option String)) (ings : List (String × List String))
      (st : St) (res : List (String × List String) × St),
      scrape_ingredient_links resolve label ls ings st = some res →
      ∀ k, (List.lookup k st.data.items).isSome →
        (List.lookup k res.2.data.items).isSome := by
  intro ls
  induction ls with
  | nil =>
    intro ings st res h k hk
    simp only [scrape_ingredient_links, Option.some.injEq] at h
    subst h
    exact hk
  | cons hd tl ih =>
    intro ings st res h k hk
    cases hd with
    | none =>
      simp only [scrape_ingredient_links] at h
      exact ih ings st res h k hk
    | some href =>
      simp only [scrape_ingredient_links] at h
      cases hfd : firstDigitRun href with
      | none =>
        simp only [hfd] at h
        exact ih ings st res h k hk
      | some ingId =>
        simp only [hfd] at h
        cases hr : resolve st ingId (siteRoot ++ href) with
        | none =>
          simp only [hr] at h
          exact Option.noConfusion h
        | some p =>
          obtain ⟨b, st1⟩ := p
          simp only [hr] at h
          exact ih _ st1 res h k (hres st ingId _ b st1 hr k hk)

theorem scrape_ingredient_groups_mono
    (resolve : St → String → String → Option (Bool × St))
    (hres : ∀ (st1 : St) (i u : String) (b : Bool) (st2 : St),
      resolve st1 i u = some (b, st2) →
      ∀ k, (List.lookup k st1.data.items).isSome →
        (List.lookup k st2.data.items).isSome) :
    ∀ (gs : List IngGroup) (ings : List (String × List String))
      (st : St) (res : List (String × List String) × St),
      scrape_ingredient_groups resolve gs ings st = some res →
      ∀ k, (List.lookup k st.data.items).isSome →
        (List.lookup k res.2.data.items).isSome := by
  intro gs
  induction gs with
  | nil =>
    intro ings st res h k hk
    simp only [scrape_ingredient_groups, Option.some.injEq] at h
    subst h
    exact hk
  | cons g rest ih =>
    intro ings st res h k hk
    cases hh : g.header with
    | none =>
      simp only [scrape_ingredient_groups, hh] at h
      exact ih ings st res h k hk
    | some htext =>
      simp only [scrape_ingredient_groups, hh] at h
      cases hl : scrape_ingredient_links resolve (pystrip htext) g.links
          (setEntry ings (pystrip htext) []) st with
      | none =>
        simp only [hl] at h
        exact Option.noConfusion h
      | some p =>
        obtain ⟨ings1, st1⟩ := p
        simp only [hl] at h
        exact ih ings1 st1 res h k
          (scrape_ingredient_links_mono resolve (pystrip htext) hres g.links
            (setEntry ings (pystrip htext) []) st (ings1, st1) hl k hk)

/-- C3 amended.  After any returning `_scrape_menu_item` call: an id
already present in `items` is never re-fetched (the call is a no-op
returning success); every key of `items` survives (`items` only grows);
and on success the resolved item-id itself is a key of `items`
afterwards.  An ingredient-id is guaranteed present only when its own
recursive resolution succeeded: a failed ingredient is left unset (to be
retried) and may be fetched again by a later referencing composite, and
the referencing composite still reports success (see the
counterexample). -/
theorem resolver_success_presence_and_monotonicity
    (fetch : String → Option ItemPage) :
    ∀ (fuel : Nat) (st : St) (itemId url : String) (b : Bool) (st' : St),
      scrape_menu_item fetch fuel st itemId url = some (b, st') →
      (((List.lookup itemId st.data.items).isSome → st' = st ∧ b = true) ∧
       (∀ k, (List.lookup k st.data.items).isSome →
         (List.lookup k st'.data.items).isSome) ∧
       (b = true → (List.lookup itemId st'.data.items).isSome)) := by
  intro fuel
  induction fuel with
  | zero =>
    intro st itemId url b st' h
    exact absurd h (by simp [scrape_menu_item])
  | succ n ih =>
    intro st itemId url b st' h
    simp only [scrape_menu_item] at h
    by_cases hmem : (List.lookup itemId st.data.items).isSome
    · simp only [hmem, if_true] at h
      simp only [Option.some.injEq, Prod.mk.injEq] at h
      obtain ⟨hb, hst⟩ := h
      subst hb
      subst hst
      exact ⟨fun _ => ⟨rfl, rfl⟩, fun k hk => hk, fun _ => hmem⟩
    · simp only [hmem, Bool.false_eq_true, if_false] at h
      cases hf : fetch url with
      | none =>
        simp only [hf, Option.some.injEq, Prod.mk.injEq] at h
        obtain ⟨hb, hst⟩ := h
        subst hb
        subst hst
        exact ⟨fun hmem2 => absurd hmem2 hmem, fun k hk => hk,
          fun hbt => absurd hbt (by simp)⟩
      | some page =>
        simp only [hf] at h
        cases hps : parse_standard_item page with
        | some info =>
          simp only [hps, Option.some.injEq, Prod.mk.injEq] at h
          obtain ⟨hb, hst⟩ := h
          subst hb
          subst hst
          refine ⟨fun hmem2 => absurd hmem2 hmem, fun k hk => ?_, fun _ => ?_⟩
          · exact lookup_setEntry_isSome _ _ _ _ hk
          · simp [setItem, lookup_setEntry_self]
        | none =>
          simp only [hps] at h
          cases hhl : page.headline with
          | none =>
            simp only [hhl, Option.some.injEq, Prod.mk.injEq] at h
            obtain ⟨hb, hst⟩ := h
            subst hb
            subst hst
            exact ⟨fun hmem2 => absurd hmem2 hmem, fun k hk => hk,
              fun hbt => absurd hbt (by simp)⟩
          | some nm =>
            simp only [hhl] at h
            cases hg : scrape_ingredient_groups
                (fun s i u => scrape_menu_item fetch n s i u)
                page.ingredientGroups []
                { st with fetched := st.fetched ++ [url] } with
            | none =>
              simp only [hg] at h
              exact Option.noConfusion h
            | some p =>
              obtain ⟨ings, st2⟩ := p
              simp only [hg, Option.some.injEq, Prod.mk.injEq] at h
              obtain ⟨hb, hst⟩ := h
              subst hb
              subst hst
              have hmono := scrape_ingredient_groups_mono
                (fun s i u => scrape_menu_item fetch n s i u)
                (fun st1 i u b2 st3 heq k hk => (ih st1 i u b2 st3 heq).2.1 k hk)
                page.ingredientGroups []
                { st with fetched := st.fetched ++ [url] } (ings, st2) hg
              refine ⟨fun hmem2 => absurd hmem2 hmem, fun k hk => ?_, fun _ => ?_⟩
              · exact lookup_setEntry_isSome _ _ _ _ (hmono k hk)
              · simp [setItem, lookup_setEntry_self]

/-- Witness for the amended C3: the successful resolution of composite 1
over `sharedIngFetch`. -/
theorem resolver_success_presence_and_monotonicity_case :
    ((List.lookup "1" emptySt.data.items).isSome → stShared1 = emptySt ∧ true = true) ∧
    (∀ k, (List.lookup k emptySt.data.items).isSome →
      (List.lookup k stShared1.data.items).isSome) ∧
    (true = true → (List.lookup "1" stShared1.data.items).isSome) :=
  resolver_success_presence_and_monotonicity sharedIngFetch 5 emptySt "1"
    "https://dining.ucla.edu/r/1" true stShared1 (by decide)
